import Mathlib

/-!
Shallow embedding of `internal/storage` of the healthanalyzer repository
(`sqlite.go`, `store.go`, `schema.sql`, `vec_schema.sql`).

Modelling conventions:
* The SQLite database state is a `DB`: one list of rows per table
  (`entries`, `findings`, `summaries`, `metrics`, `vec_embeddings`).
* Calendar dates are stored by the Go code as ISO `YYYY-MM-DD` strings and
  compared lexicographically by SQLite, which on that canonical form is
  chronological order; we embed a date as a `Nat` with `≤` as that order.
* `created_at` timestamps (RFC3339 strings) are likewise embedded as `Nat`,
  with `0` playing the role of Go's zero `time.Time` (`IsZero`).
* `uuid.NewString()` and `time.Now()` are effects; they are passed in
  explicitly (`genId : String` / `gen : Nat → String`, `now : Nat`).
  Freshness of generated UUIDs is a hypothesis where a proof needs it.
* `float64` / `float32` values (metric values, embedding coordinates,
  distances) are embedded as `ℚ`; SQLite stores them losslessly and the
  store never does arithmetic on them except the vector distance, whose
  ordering is what the claims are about.
* A write operation returns `Option StoreError × DB`: the Go methods return
  an `error` and mutate the database; a single-row INSERT that fails leaves
  the database unchanged (SQLite statement atomicity), and `SaveMetrics`
  models `BeginTx` / `tx.Rollback` / `tx.Commit` explicitly.
* The spec's error taxonomy is used for error values: uniqueness or
  foreign-key violations are `constraintError`, a vector whose serialized
  length does not match the `vec0` column type is `serializationError`,
  `sql.ErrNoRows` on a single-row lookup is `notFoundError`.
-/

namespace HealthAnalyzer

/-- Entry mirrors `storage.Entry` (store.go): one dated, categorized
submission plus its analysis text. -/
structure Entry where
  id : String
  date : Nat
  category : String
  inputText : String
  analysisText : String
  createdAt : Nat
  deriving DecidableEq

/-- Finding mirrors `storage.Finding` (store.go). -/
structure Finding where
  id : String
  date : Nat
  findingText : String
  categories : List String
  createdAt : Nat
  deriving DecidableEq

/-- Summary mirrors `storage.Summary` (store.go). -/
structure Summary where
  id : String
  periodStart : Nat
  periodEnd : Nat
  category : String
  summaryText : String
  createdAt : Nat
  deriving DecidableEq

/-- Metric mirrors `storage.Metric` (store.go); `value` is the REAL column. -/
structure Metric where
  id : String
  entryId : String
  key : String
  value : ℚ
  createdAt : Nat
  deriving DecidableEq

/-- One row of the `vec_embeddings` vec0 virtual table (vec_schema.sql):
`source_id TEXT, source_type TEXT, embedding float[1536]`. -/
structure EmbeddingRow where
  sourceId : String
  sourceType : String
  embedding : List ℚ
  deriving DecidableEq

/-- SimilarResult mirrors `storage.SimilarResult` (store.go). -/
structure SimilarResult where
  entry : Entry
  distance : ℚ
  deriving DecidableEq

/-- The spec's error taxonomy (§7), restricted to the kinds reachable in
this pure model. -/
inductive StoreError where
  | constraintError
  | serializationError
  | notFoundError
  deriving DecidableEq

/-- The database state: one list per table created by schema.sql and
vec_schema.sql. Row order within a list is insertion order. -/
structure DB where
  entries : List Entry
  findings : List Finding
  summaries : List Summary
  metrics : List Metric
  embeddings : List EmbeddingRow
  deriving DecidableEq

/-- sqlite.go: `const EmbeddingDimension = 1536`. -/
def EmbeddingDimension : Nat := 1536

/-! ### Orderings used by the SQL `ORDER BY` clauses

SQLite's `ORDER BY x DESC` returns some permutation of the result set that
is sorted by the key; relative order of ties is unspecified. We model it by
`List.insertionSort` under the corresponding total preorder. -/

/-- `ORDER BY date DESC` on entries. -/
def entryDateDesc (a b : Entry) : Prop := b.date ≤ a.date

instance : DecidableRel entryDateDesc := fun a b =>
  inferInstanceAs (Decidable (b.date ≤ a.date))

instance : IsTotal Entry entryDateDesc := ⟨fun a b => Nat.le_total b.date a.date⟩

instance : IsTrans Entry entryDateDesc :=
  ⟨fun _ _ _ h1 h2 => Nat.le_trans h2 h1⟩

/-- `ORDER BY date DESC` on findings. -/
def findingDateDesc (a b : Finding) : Prop := b.date ≤ a.date

instance : DecidableRel findingDateDesc := fun a b =>
  inferInstanceAs (Decidable (b.date ≤ a.date))

instance : IsTotal Finding findingDateDesc := ⟨fun a b => Nat.le_total b.date a.date⟩

instance : IsTrans Finding findingDateDesc :=
  ⟨fun _ _ _ h1 h2 => Nat.le_trans h2 h1⟩

/-- `ORDER BY period_start DESC` on summaries. -/
def summaryStartDesc (a b : Summary) : Prop := b.periodStart ≤ a.periodStart

instance : DecidableRel summaryStartDesc := fun a b =>
  inferInstanceAs (Decidable (b.periodStart ≤ a.periodStart))

instance : IsTotal Summary summaryStartDesc :=
  ⟨fun a b => Nat.le_total b.periodStart a.periodStart⟩

instance : IsTrans Summary summaryStartDesc :=
  ⟨fun _ _ _ h1 h2 => Nat.le_trans h2 h1⟩

/-- `ORDER BY e.date DESC` on the metrics-entries join of `GetMetrics`. -/
def metricJoinDateDesc (a b : Metric × Entry) : Prop := b.2.date ≤ a.2.date

instance : DecidableRel metricJoinDateDesc := fun a b =>
  inferInstanceAs (Decidable (b.2.date ≤ a.2.date))

instance : IsTotal (Metric × Entry) metricJoinDateDesc :=
  ⟨fun a b => Nat.le_total b.2.date a.2.date⟩

instance : IsTrans (Metric × Entry) metricJoinDateDesc :=
  ⟨fun _ _ _ h1 h2 => Nat.le_trans h2 h1⟩

/-- Ascending KNN distance order on scored embedding rows. -/
def scoredDistAsc (a b : EmbeddingRow × ℚ) : Prop := a.2 ≤ b.2

instance : DecidableRel scoredDistAsc := fun a b =>
  inferInstanceAs (Decidable (a.2 ≤ b.2))

instance : IsTotal (EmbeddingRow × ℚ) scoredDistAsc := ⟨fun a b => le_total a.2 b.2⟩

instance : IsTrans (EmbeddingRow × ℚ) scoredDistAsc :=
  ⟨fun _ _ _ h1 h2 => le_trans h1 h2⟩

/-- Non-decreasing distance order on search results. -/
def resultDistAsc (a b : SimilarResult) : Prop := a.distance ≤ b.distance

/-! ### Entry operations (sqlite.go) -/

/-- `SaveEntry`: assigns a UUID when `entry.ID == ""`, stamps `CreatedAt`
when zero, then runs a single INSERT; the `id` column is PRIMARY KEY so an
existing id makes the INSERT fail (the spec's ConstraintError) and the
database is unchanged. -/
def SaveEntry (db : DB) (entry : Entry) (genId : String) (now : Nat) :
    Option StoreError × DB :=
  let entry1 := if entry.id = "" then { entry with id := genId } else entry
  let entry2 := if entry1.createdAt = 0 then { entry1 with createdAt := now } else entry1
  if db.entries.any (fun e => e.id == entry2.id) then
    (some StoreError.constraintError, db)
  else
    (none, { db with entries := db.entries ++ [entry2] })

/-- The row actually inserted by a successful `SaveEntry entry genId now`. -/
def normalizeEntry (entry : Entry) (genId : String) (now : Nat) : Entry :=
  { entry with
    id := if entry.id = "" then genId else entry.id
    createdAt := if entry.createdAt = 0 then now else entry.createdAt }

/-- `GetEntryByID`: single-row lookup; `sql.ErrNoRows` on a miss is the
spec's NotFound. -/
def GetEntryByID (db : DB) (id : String) : Except StoreError Entry :=
  match db.entries.find? (fun e => e.id == id) with
  | some e => Except.ok e
  | none => Except.error StoreError.notFoundError

/-- `GetEntriesByDateRange`:
`WHERE category = ? AND date >= ? AND date <= ? ORDER BY date DESC`. -/
def GetEntriesByDateRange (db : DB) (category : String) (fromDate toDate : Nat) :
    List Entry :=
  List.insertionSort entryDateDesc
    (db.entries.filter
      (fun e => decide (e.category = category ∧ fromDate ≤ e.date ∧ e.date ≤ toDate)))

/-! ### Finding operations -/

/-- `SaveFinding`: same id / timestamp assignment as `SaveEntry`; the
`categories` list is stored as its JSON array encoding, which for a list of
strings round-trips exactly, so the model stores the list itself. -/
def SaveFinding (db : DB) (finding : Finding) (genId : String) (now : Nat) :
    Option StoreError × DB :=
  let f1 := if finding.id = "" then { finding with id := genId } else finding
  let f2 := if f1.createdAt = 0 then { f1 with createdAt := now } else f1
  if db.findings.any (fun g => g.id == f2.id) then
    (some StoreError.constraintError, db)
  else
    (none, { db with findings := db.findings ++ [f2] })

/-- SQLite `LIMIT ?`: a negative limit means no upper bound on the number
of returned rows. -/
def sqliteLimit {α : Type} (n : Int) (l : List α) : List α :=
  if n < 0 then l else l.take n.toNat

/-- `GetRecentFindings`: `ORDER BY date DESC LIMIT ?`. -/
def GetRecentFindings (db : DB) (limit : Int) : List Finding :=
  sqliteLimit limit (List.insertionSort findingDateDesc db.findings)

/-! ### Summary operations -/

/-- `SaveSummary`: same id / timestamp assignment and PRIMARY KEY
constraint as `SaveEntry`. -/
def SaveSummary (db : DB) (summary : Summary) (genId : String) (now : Nat) :
    Option StoreError × DB :=
  let s1 := if summary.id = "" then { summary with id := genId } else summary
  let s2 := if s1.createdAt = 0 then { s1 with createdAt := now } else s1
  if db.summaries.any (fun t => t.id == s2.id) then
    (some StoreError.constraintError, db)
  else
    (none, { db with summaries := db.summaries ++ [s2] })

/-- `GetSummaries`: `WHERE category = ? AND period_start >= ? AND
period_end <= ? ORDER BY period_start DESC`. -/
def GetSummaries (db : DB) (category : String) (fromDate toDate : Nat) :
    List Summary :=
  List.insertionSort summaryStartDesc
    (db.summaries.filter
      (fun s => decide (s.category = category ∧ fromDate ≤ s.periodStart ∧ s.periodEnd ≤ toDate)))

/-! ### Metric operations

`SaveMetrics` opens a transaction, prepares
`INSERT INTO metrics (id, entry_id, key, value, created_at)`, formats one
shared `now` timestamp, loops over the batch generating a UUID for each
metric whose id is empty, and commits; the first failing insert aborts the
loop and the deferred `tx.Rollback()` leaves the database unchanged.
An insert fails when the generated/supplied id collides with an existing
`metrics.id` (PRIMARY KEY) or when `entry_id` does not reference an
existing `entries.id` (`REFERENCES entries(id)` with `_foreign_keys=on`);
both are the spec's ConstraintError. -/

/-- One `stmt.ExecContext` of the `SaveMetrics` loop, run against the
transaction's current state. -/
def insertMetric (db : DB) (row : Metric) : Except StoreError DB :=
  if db.metrics.any (fun r => r.id == row.id) then
    Except.error StoreError.constraintError
  else if db.entries.any (fun e => e.id == row.entryId) then
    Except.ok { db with metrics := db.metrics ++ [row] }
  else
    Except.error StoreError.constraintError

/-- The insert loop of `SaveMetrics`, threading the transaction state.
`gen i` is the i-th `uuid.NewString()` call; the counter advances only for
metrics whose id is empty, matching the Go control flow. -/
def metricsTxLoop (entryID : String) (now : Nat) (gen : Nat → String) :
    DB → List Metric → Nat → Except StoreError DB
  | db, [], _ => Except.ok db
  | db, m :: ms, i =>
    let id := if m.id = "" then gen i else m.id
    match insertMetric db { id := id, entryId := entryID, key := m.key, value := m.value, createdAt := now } with
    | Except.error e => Except.error e
    | Except.ok db2 => metricsTxLoop entryID now gen db2 ms (if m.id = "" then i + 1 else i)

/-- `SaveMetrics`: the whole batch inside one transaction; commit on
success, rollback (state unchanged) on the first failed insert. -/
def SaveMetrics (db : DB) (entryID : String) (metrics : List Metric)
    (gen : Nat → String) (now : Nat) : Option StoreError × DB :=
  match metricsTxLoop entryID now gen db metrics 0 with
  | Except.ok txDb => (none, txDb)
  | Except.error e => (some e, db)

/-- The rows a fully successful `SaveMetrics` call appends, in order:
id generated when empty, `entry_id` forced to the call's `entryID`, and
every row stamped with the one shared `now`. -/
def assignedMetricRows (entryID : String) (now : Nat) (gen : Nat → String) :
    List Metric → Nat → List Metric
  | [], _ => []
  | m :: ms, i =>
    { id := if m.id = "" then gen i else m.id, entryId := entryID, key := m.key,
      value := m.value, createdAt := now } ::
      assignedMetricRows entryID now gen ms (if m.id = "" then i + 1 else i)

/-- `GetMetrics`: `FROM metrics m JOIN entries e ON e.id = m.entry_id
WHERE e.category = ? AND m.key = ? AND e.date >= ? AND e.date <= ?
ORDER BY e.date DESC`, projecting the metric columns. -/
def GetMetrics (db : DB) (category : String) (key : String) (fromDate toDate : Nat) :
    List Metric :=
  (List.insertionSort metricJoinDateDesc
    ((db.metrics.flatMap (fun m =>
      (db.entries.filter (fun e =>
        decide (e.id = m.entryId ∧ e.category = category ∧ fromDate ≤ e.date ∧ e.date ≤ toDate))).map
          (fun e => (m, e)))).filter (fun p => p.1.key == key))).map (fun p => p.1)

/-! ### Embedding operations -/

/-- Byte length of the blob produced by `sqlite_vec.SerializeFloat32`:
4 bytes per float32, little-endian, for any input length — the Go helper
itself never fails and never truncates or pads. -/
def serializedByteLength (v : List ℚ) : Nat := 4 * v.length

/-- `SaveEmbedding`: serializes the vector and inserts it into the vec0
virtual table, whose `embedding float[1536]` column rejects a blob whose
byte length is not `4 * 1536` (the spec's SerializationError); a matching
vector is stored verbatim. -/
def SaveEmbedding (db : DB) (sourceId : String) (sourceType : String)
    (embedding : List ℚ) : Option StoreError × DB :=
  if serializedByteLength embedding ≠ 4 * EmbeddingDimension then
    (some StoreError.serializationError, db)
  else
    (none, { db with embeddings := db.embeddings ++ [⟨sourceId, sourceType, embedding⟩] })

/-- Squared Euclidean distance between the query blob and a stored vector.
sqlite-vec's default KNN metric is L2; the square root it applies is
strictly monotone, so ordering and comparisons of distances are those of
this squared form. -/
def dist2 (q v : List ℚ) : ℚ :=
  ((q.zip v).map (fun p => (p.1 - p.2) ^ 2)).sum

/-- `SearchSimilar`: the vec0 KNN query
`WHERE v.embedding MATCH ? AND v.source_type = ? AND k = ?` selects the up
to `k` nearest rows among those whose `source_type` matches, ordered by
ascending distance, and the `JOIN entries e ON e.id = v.source_id` keeps
only rows whose source id references a stored entry. `k` is nonnegative in
every call (vec0 rejects a non-positive `k`). -/
def SearchSimilar (db : DB) (q : List ℚ) (sourceType : String) (k : Nat) :
    List SimilarResult :=
  ((List.insertionSort scoredDistAsc
      ((db.embeddings.filter (fun v => v.sourceType == sourceType)).map
        (fun v => (v, dist2 q v.embedding)))).take k).filterMap
    (fun p =>
      (db.entries.find? (fun e => e.id == p.1.sourceId)).map
        (fun e => { entry := e, distance := p.2 }))

/-- The finding row actually inserted by a successful `SaveFinding`. -/
def normalizeFinding (f : Finding) (genId : String) (now : Nat) : Finding :=
  { f with
    id := if f.id = "" then genId else f.id
    createdAt := if f.createdAt = 0 then now else f.createdAt }

/-- The summary row actually inserted by a successful `SaveSummary`. -/
def normalizeSummary (s : Summary) (genId : String) (now : Nat) : Summary :=
  { s with
    id := if s.id = "" then genId else s.id
    createdAt := if s.createdAt = 0 then now else s.createdAt }

/-! ### Concrete states used by witnesses and counterexamples

The entries follow the spec's example scenario (§8): "sleep" entries on
days 25–27 plus a "food" entry on day 27. -/

def exE1 : Entry := ⟨"e1", 25, "sleep", "day 1", "a1", 5⟩

def exE2 : Entry := ⟨"e2", 26, "sleep", "day 2", "a2", 5⟩

def exE3 : Entry := ⟨"e3", 27, "sleep", "day 3", "a3", 5⟩

def exE4 : Entry := ⟨"e4", 27, "food", "food day 3", "a4", 5⟩

def exDb : DB := ⟨[exE1, exE2, exE3, exE4], [], [], [], []⟩

def exDb0 : DB := ⟨[], [], [], [], []⟩

def exEntryNoId : Entry := ⟨"", 28, "sleep", "day 4", "", 0⟩

def exF1 : Finding := ⟨"f1", 24, "finding one", ["sleep"], 5⟩

def exF2 : Finding := ⟨"", 26, "finding two", ["sleep", "food"], 0⟩

def exDbF : DB := ⟨[], [exF1], [], [], []⟩

def exS1 : Summary := ⟨"", 21, 27, "sleep", "weekly rollup", 0⟩

def exMetric : Metric := ⟨"", "", "total_hours", 7, 0⟩

/-- A metric whose caller supplied a nonzero creation timestamp (77) and a
nonempty owning-entry field. -/
def exMetricStamped : Metric := ⟨"m1", "ignored", "total_hours", 7, 77⟩

/-- A deterministic stand-in for the `uuid.NewString()` supply. -/
def gen0 : Nat → String := fun _ => "u0"

def exRowE1 : EmbeddingRow := ⟨"e1", "entry", [1]⟩

def exRowZZ : EmbeddingRow := ⟨"zz", "entry", [2]⟩

/-- Entries `[exE1]`; one embedding owned by `exE1` and one dangling. -/
def exDbV : DB := ⟨[exE1], [], [], [], [exRowE1, exRowZZ]⟩

/-- Entries `[exE1]`; only the embedding owned by `exE1`. -/
def exDbV3 : DB := ⟨[exE1], [], [], [], [exRowE1]⟩

/-- A full-dimension zero vector, as `SaveEmbedding` would store it. -/
def exVecZero : List ℚ := List.replicate EmbeddingDimension 0

/-- A state reachable by calling `SaveEmbedding` with source id "zz" and a
valid 1536-dimension vector while no entry is stored: the embedding's
`source_id` references no entry. -/
def exDbDangling : DB := ⟨[], [], [], [], [⟨"zz", "entry", exVecZero⟩]⟩

/-! ### Helper lemmas -/

/-- `find?` over `l ++ [a]` returns `a` when nothing in `l` matches. -/
theorem find?_append_singleton {α : Type} {p : α → Bool} {l : List α} {a : α}
    (h : ∀ x ∈ l, ¬ p x) (ha : p a) : (l ++ [a]).find? p = some a := by
  rw [List.find?_append, List.find?_eq_none.mpr h]
  simp [ha]

/-- `filterMap` returns one element per input on which `f` succeeds. -/
theorem length_filterMap_eq_countP {α β : Type} (f : α → Option β) :
    ∀ l : List α, (l.filterMap f).length = l.countP (fun a => (f a).isSome) := by
  intro l
  induction l with
  | nil => simp
  | cons a l ih =>
    cases hf : f a <;> simp [List.filterMap_cons, hf, List.countP_cons, ih]

/-- A successful metrics transaction loop appends exactly the assigned
rows and touches no other table. -/
theorem metricsTxLoop_ok_eq (entryID : String) (now : Nat) (gen : Nat → String) :
    ∀ (ms : List Metric) (db : DB) (i : Nat) (txDb : DB),
      metricsTxLoop entryID now gen db ms i = Except.ok txDb →
      txDb = { db with metrics := db.metrics ++ assignedMetricRows entryID now gen ms i } := by
  intro ms
  induction ms with
  | nil =>
    intro db i txDb h
    simp only [metricsTxLoop] at h
    cases h
    simp [assignedMetricRows]
  | cons m ms ih =>
    intro db i txDb h
    simp only [metricsTxLoop, insertMetric] at h
    by_cases h1 : db.metrics.any (fun r =>
        r.id == (if m.id = "" then gen i else m.id)) = true
    · simp [h1] at h
    · rw [if_neg h1] at h
      by_cases h2 : db.entries.any (fun e => e.id == entryID) = true
      · rw [if_pos h2] at h
        have := ih _ _ _ h
        rw [this]
        simp [assignedMetricRows, List.append_assoc]
      · simp [h2] at h

/-- On success, `SaveMetrics` returns the committed transaction state. -/
theorem saveMetrics_ok_eq {db : DB} {entryID : String} {ms : List Metric}
    {gen : Nat → String} {now : Nat}
    (h : (SaveMetrics db entryID ms gen now).1 = none) :
    (SaveMetrics db entryID ms gen now).2 =
      { db with metrics := db.metrics ++ assignedMetricRows entryID now gen ms 0 } := by
  unfold SaveMetrics at h ⊢
  cases hl : metricsTxLoop entryID now gen db ms 0 with
  | ok txDb => simpa using metricsTxLoop_ok_eq entryID now gen ms db 0 txDb hl
  | error e => rw [hl] at h; simp at h

/-- On failure, `SaveMetrics` rolls back: the returned state is the input
state. -/
theorem saveMetrics_err_eq {db : DB} {entryID : String} {ms : List Metric}
    {gen : Nat → String} {now : Nat} {e : StoreError}
    (h : (SaveMetrics db entryID ms gen now).1 = some e) :
    (SaveMetrics db entryID ms gen now).2 = db := by
  unfold SaveMetrics at h ⊢
  cases hl : metricsTxLoop entryID now gen db ms 0 with
  | ok txDb => rw [hl] at h; simp at h
  | error e2 => simp

/-- Every assigned metric row is stamped with the shared timestamp. -/
theorem assignedMetricRows_createdAt (entryID : String) (now : Nat) (gen : Nat → String) :
    ∀ (ms : List Metric) (i : Nat), ∀ r ∈ assignedMetricRows entryID now gen ms i,
      r.createdAt = now := by
  intro ms
  induction ms with
  | nil => intro i r hr; simp [assignedMetricRows] at hr
  | cons m ms ih =>
    intro i r hr
    simp only [assignedMetricRows, List.mem_cons] at hr
    rcases hr with hr | hr
    · rw [hr]
    · exact ih _ r hr

/-- One assigned batch has as many rows as metrics. -/
theorem assignedMetricRows_length (entryID : String) (now : Nat) (gen : Nat → String) :
    ∀ (ms : List Metric) (i : Nat),
      (assignedMetricRows entryID now gen ms i).length = ms.length := by
  intro ms
  induction ms with
  | nil => intro i; simp [assignedMetricRows]
  | cons m ms ih => intro i; simp [assignedMetricRows, ih]

/-- The transaction loop never reads a metric's caller-supplied
`CreatedAt`. -/
theorem metricsTxLoop_map_createdAt (entryID : String) (now : Nat) (gen : Nat → String)
    (c : Nat) :
    ∀ (ms : List Metric) (db : DB) (i : Nat),
      metricsTxLoop entryID now gen db (ms.map (fun m => { m with createdAt := c })) i =
        metricsTxLoop entryID now gen db ms i := by
  intro ms
  induction ms with
  | nil => intro db i; simp
  | cons m ms ih =>
    intro db i
    simp only [List.map_cons, metricsTxLoop]
    cases insertMetric db
        { id := if m.id = "" then gen i else m.id, entryId := entryID, key := m.key,
          value := m.value, createdAt := now } with
    | error e => rfl
    | ok db2 => exact ih db2 _

/-- A successful `SaveEntry` appends exactly the normalized row. -/
theorem saveEntry_ok_eq {db : DB} {e : Entry} {genId : String} {now : Nat}
    (h : (SaveEntry db e genId now).1 = none) :
    (SaveEntry db e genId now).2 =
      { db with entries := db.entries ++ [normalizeEntry e genId now] } ∧
    db.entries.any (fun x => x.id == (normalizeEntry e genId now).id) = false := by
  have hfix : (SaveEntry db e genId now) =
      (if db.entries.any (fun x => x.id == (normalizeEntry e genId now).id) then
        (some StoreError.constraintError, db)
      else (none, { db with entries := db.entries ++ [normalizeEntry e genId now] })) := by
    unfold SaveEntry normalizeEntry
    by_cases h1 : e.id = "" <;> by_cases h2 : e.createdAt = 0 <;> simp [h1, h2]
  by_cases hany : db.entries.any (fun x => x.id == (normalizeEntry e genId now).id) = true
  · rw [hfix, if_pos hany] at h; simp at h
  · rw [hfix, if_neg hany]
    exact ⟨rfl, by simpa using hany⟩

/-- A successful `SaveFinding` appends exactly the normalized row. -/
theorem saveFinding_ok_eq {db : DB} {f : Finding} {genId : String} {now : Nat}
    (h : (SaveFinding db f genId now).1 = none) :
    (SaveFinding db f genId now).2 =
      { db with findings := db.findings ++ [normalizeFinding f genId now] } := by
  have hfix : (SaveFinding db f genId now) =
      (if db.findings.any (fun x => x.id == (normalizeFinding f genId now).id) then
        (some StoreError.constraintError, db)
      else (none, { db with findings := db.findings ++ [normalizeFinding f genId now] })) := by
    unfold SaveFinding normalizeFinding
    by_cases h1 : f.id = "" <;> by_cases h2 : f.createdAt = 0 <;> simp [h1, h2]
  by_cases hany : db.findings.any (fun x => x.id == (normalizeFinding f genId now).id) = true
  · rw [hfix, if_pos hany] at h; simp at h
  · rw [hfix, if_neg hany]

/-- A successful `SaveSummary` appends exactly the normalized row. -/
theorem saveSummary_ok_eq {db : DB} {s : Summary} {genId : String} {now : Nat}
    (h : (SaveSummary db s genId now).1 = none) :
    (SaveSummary db s genId now).2 =
      { db with summaries := db.summaries ++ [normalizeSummary s genId now] } := by
  have hfix : (SaveSummary db s genId now) =
      (if db.summaries.any (fun x => x.id == (normalizeSummary s genId now).id) then
        (some StoreError.constraintError, db)
      else (none, { db with summaries := db.summaries ++ [normalizeSummary s genId now] })) := by
    unfold SaveSummary normalizeSummary
    by_cases h1 : s.id = "" <;> by_cases h2 : s.createdAt = 0 <;> simp [h1, h2]
  by_cases hany : db.summaries.any (fun x => x.id == (normalizeSummary s genId now).id) = true
  · rw [hfix, if_pos hany] at h; simp at h
  · rw [hfix, if_neg hany]

/-- Passing the row count as the limit returns all findings. -/
theorem getRecentFindings_full_perm (db : DB) :
    (GetRecentFindings db (db.findings.length : Int)).Perm db.findings := by
  unfold GetRecentFindings sqliteLimit
  rw [if_neg (by simp)]
  rw [Int.toNat_natCast]
  rw [List.take_of_length_le (by rw [(List.perm_insertionSort _ _).length_eq])]
  exact List.perm_insertionSort _ _

/-! ### Claim theorems -/

/-- C8: `SaveMetrics` called with an empty metrics slice succeeds without
error and persists no rows, for any entry id (existing or not): the
transaction commits with zero inserts and the entry id is never checked
against the entries table. -/
theorem saveMetrics_emptyBatch (db : DB) (entryID : String) (gen : Nat → String)
    (now : Nat) : SaveMetrics db entryID [] gen now = (none, db) := rfl

/-- C4: for every vector whose length differs from the fixed embedding
dimension 1536, `SaveEmbedding` fails with a SerializationError at write
time and the database is unchanged — the vector is never persisted,
truncated or padded. -/
theorem saveEmbedding_dimensionMismatch (db : DB) (sourceId sourceType : String)
    (v : List ℚ) (h : v.length ≠ EmbeddingDimension) :
    SaveEmbedding db sourceId sourceType v = (some StoreError.serializationError, db) := by
  unfold SaveEmbedding serializedByteLength
  rw [if_pos (by omega)]

/-- C4 witness: the empty vector is rejected with a SerializationError and
nothing is stored. -/
theorem saveEmbedding_dimensionMismatch_witness :
    SaveEmbedding exDb0 "s" "entry" [] = (some StoreError.serializationError, exDb0) :=
  saveEmbedding_dimensionMismatch exDb0 "s" "entry" [] (by decide)

/-- C5: `SaveEntry` on an entry whose (nonempty) id is already stored
fails with a ConstraintError and leaves the database unchanged
(insert-only, no upsert); when the id is absent a fresh generated id is
assigned and, when the creation timestamp is absent, it is stamped, before
the single-row insert. -/
theorem saveEntry_insertOnly (db : DB) (e : Entry) (genId : String) (now : Nat) :
    ((∃ e0 ∈ db.entries, e0.id = e.id) → e.id ≠ "" →
      SaveEntry db e genId now = (some StoreError.constraintError, db)) ∧
    (e.id = "" → (∀ e0 ∈ db.entries, e0.id ≠ genId) →
      SaveEntry db e genId now =
        (none, { db with entries := db.entries ++ [normalizeEntry e genId now] }) ∧
      (normalizeEntry e genId now).id = genId) ∧
    (e.createdAt = 0 → (normalizeEntry e genId now).createdAt = now) := by
  refine ⟨?_, ?_, ?_⟩
  · rintro ⟨e0, he0, hid⟩ hne
    have hany : db.entries.any (fun x => x.id == e.id) = true :=
      List.any_eq_true.mpr ⟨e0, he0, by simp [hid]⟩
    unfold SaveEntry
    rw [if_neg hne]
    by_cases h2 : e.createdAt = 0 <;> simp [h2, hany]
  · intro hid hfresh
    have hany : db.entries.any (fun x => x.id == (normalizeEntry e genId now).id) = false := by
      apply List.any_eq_false.mpr
      intro x hx
      simp [normalizeEntry, hid]
      exact fun hEq => hfresh x hx hEq
    constructor
    · have hfix : (SaveEntry db e genId now) =
          (if db.entries.any (fun x => x.id == (normalizeEntry e genId now).id) then
            (some StoreError.constraintError, db)
          else (none, { db with entries := db.entries ++ [normalizeEntry e genId now] })) := by
        unfold SaveEntry normalizeEntry
        by_cases h2 : e.createdAt = 0 <;> simp [hid, h2]
      rw [hfix, if_neg (by simp [hany])]
    · simp [normalizeEntry, hid]
  · intro hc
    simp [normalizeEntry, hc]

/-- C5 witness: re-saving the stored id "e1" is rejected with the database
unchanged, and saving an id-less entry against fresh UUID "g" inserts it
with id "g" and creation timestamp 9. -/
theorem saveEntry_insertOnly_witness :
    SaveEntry exDb exE1 "g" 9 = (some StoreError.constraintError, exDb) ∧
    SaveEntry exDb exEntryNoId "g" 9 =
      (none, { exDb with entries := exDb.entries ++ [normalizeEntry exEntryNoId "g" 9] }) ∧
    (normalizeEntry exEntryNoId "g" 9).createdAt = 9 := by
  refine ⟨?_, ?_, ?_⟩
  · exact (saveEntry_insertOnly exDb exE1 "g" 9).1 ⟨exE1, by decide, rfl⟩ (by decide)
  · exact ((saveEntry_insertOnly exDb exEntryNoId "g" 9).2.1 (by decide) (by decide)).1
  · exact (saveEntry_insertOnly exDb exEntryNoId "g" 9).2.2 (by decide)

/-- C2: `GetEntriesByDateRange category from to` returns exactly the
stored entries with that exact category and date in `[from, to]` — none
with a different category or out-of-range date — ordered by date
descending (most recent first); an empty range (`from > to` or no matching
rows) yields an empty sequence, not an error. -/
theorem getEntriesByDateRange_spec (db : DB) (category : String) (fromDate toDate : Nat) :
    (GetEntriesByDateRange db category fromDate toDate).Perm
      (db.entries.filter
        (fun e => decide (e.category = category ∧ fromDate ≤ e.date ∧ e.date ≤ toDate))) ∧
    List.Sorted entryDateDesc (GetEntriesByDateRange db category fromDate toDate) ∧
    (∀ e ∈ GetEntriesByDateRange db category fromDate toDate,
      e ∈ db.entries ∧ e.category = category ∧ fromDate ≤ e.date ∧ e.date ≤ toDate) ∧
    (∀ e ∈ db.entries, e.category = category → fromDate ≤ e.date → e.date ≤ toDate →
      e ∈ GetEntriesByDateRange db category fromDate toDate) ∧
    (toDate < fromDate → GetEntriesByDateRange db category fromDate toDate = []) := by
  refine ⟨List.perm_insertionSort _ _, List.sorted_insertionSort _ _, ?_, ?_, ?_⟩
  · intro e he
    have := (List.perm_insertionSort entryDateDesc _).mem_iff.mp he
    have := List.mem_filter.mp this
    exact ⟨this.1, of_decide_eq_true this.2⟩
  · intro e he h1 h2 h3
    exact (List.perm_insertionSort entryDateDesc _).mem_iff.mpr
      (List.mem_filter.mpr ⟨he, by simp [h1, h2, h3]⟩)
  · intro hlt
    unfold GetEntriesByDateRange
    rw [List.filter_eq_nil_iff.mpr (by intro a _; simp; omega)]
    rfl

/-- C2 witness: on the example state, the range [26, 27] returns the sleep
entry of day 26 and the inverted range [5, 3] returns nothing. -/
theorem getEntriesByDateRange_spec_witness :
    exE2 ∈ GetEntriesByDateRange exDb "sleep" 26 27 ∧
    GetEntriesByDateRange exDb "sleep" 5 3 = [] :=
  ⟨(getEntriesByDateRange_spec exDb "sleep" 26 27).2.2.2.1 exE2 (by decide) rfl
      (by decide) (by decide),
    (getEntriesByDateRange_spec exDb "sleep" 5 3).2.2.2.2 (by decide)⟩

/-- C7 counterexample: the claim says `getRecentFindings n` returns at
most `n` rows for every integer `n` including `n ≤ 0`; with one stored
finding, `n = -1` is passed through to SQLite's `LIMIT`, which treats a
negative limit as "no limit" and returns the one row, so the returned row
count is not at most `n`. -/
theorem getRecentFindings_negativeLimit_cex :
    (GetRecentFindings exDbF (-1)).length = 1 ∧
    ¬ (((GetRecentFindings exDbF (-1)).length : Int) ≤ -1) := by decide

/-- C7 (amended): `getRecentFindings n` returns rows ordered by date
descending with the most recent date first; for every `n ≥ 0` it returns
at most `n` rows, while for `n < 0` SQLite's `LIMIT` imposes no bound and
all stored findings are returned. -/
theorem getRecentFindings_limit_spec (db : DB) (n : Int) :
    List.Sorted findingDateDesc (GetRecentFindings db n) ∧
    (0 ≤ n → ((GetRecentFindings db n).length : Int) ≤ n) ∧
    (n < 0 → (GetRecentFindings db n).Perm db.findings) := by
  refine ⟨?_, ?_, ?_⟩
  · unfold GetRecentFindings sqliteLimit
    by_cases hn : n < 0
    · rw [if_pos hn]
      exact List.sorted_insertionSort _ _
    · rw [if_neg hn]
      exact List.Pairwise.sublist (List.take_sublist _ _) (List.sorted_insertionSort _ _)
  · intro hn
    unfold GetRecentFindings sqliteLimit
    rw [if_neg (by omega)]
    calc ((List.take n.toNat _).length : Int)
        ≤ (n.toNat : Int) := by
          rw [List.length_take]
          exact_mod_cast Nat.min_le_left _ _
      _ = n := Int.toNat_of_nonneg hn
  · intro hn
    unfold GetRecentFindings sqliteLimit
    rw [if_pos hn]
    exact List.perm_insertionSort _ _

/-- C7 witness: with one stored finding, limit 2 returns at most 2 rows
and limit -1 returns every stored finding. -/
theorem getRecentFindings_limit_spec_witness :
    (((GetRecentFindings exDbF 2).length : Int) ≤ 2) ∧
    (GetRecentFindings exDbF (-1)).Perm exDbF.findings :=
  ⟨(getRecentFindings_limit_spec exDbF 2).2.1 (by decide),
    (getRecentFindings_limit_spec exDbF (-1)).2.2 (by decide)⟩

/-- C1: `SaveMetrics` persists the batch atomically. If the call reports
an error, the returned state is the input state — no metric of the batch
is persisted and the database is as if the call never happened; the
referential violation of a non-existent entry id is one such error, hit on
any non-empty batch. If the call succeeds, the state gained exactly one
row per metric of the batch and nothing else changed. -/
theorem saveMetrics_atomic (db : DB) (entryID : String) (ms : List Metric)
    (gen : Nat → String) (now : Nat) :
    (∀ e : StoreError, (SaveMetrics db entryID ms gen now).1 = some e →
      (SaveMetrics db entryID ms gen now).2 = db) ∧
    ((SaveMetrics db entryID ms gen now).1 = none →
      (SaveMetrics db entryID ms gen now).2 =
        { db with metrics := db.metrics ++ assignedMetricRows entryID now gen ms 0 } ∧
      (assignedMetricRows entryID now gen ms 0).length = ms.length) ∧
    (ms ≠ [] → (∀ e0 ∈ db.entries, e0.id ≠ entryID) →
      SaveMetrics db entryID ms gen now = (some StoreError.constraintError, db)) := by
  refine ⟨fun e he => saveMetrics_err_eq he,
    fun h => ⟨saveMetrics_ok_eq h, assignedMetricRows_length entryID now gen ms 0⟩, ?_⟩
  intro hne hmiss
  cases ms with
  | nil => exact absurd rfl hne
  | cons m ms =>
    have hfk : db.entries.any (fun e => e.id == entryID) = false :=
      List.any_eq_false.mpr (fun x hx => by simpa using hmiss x hx)
    unfold SaveMetrics
    simp only [metricsTxLoop, insertMetric, hfk]
    by_cases h1 : db.metrics.any (fun r =>
        r.id == (if m.id = "" then gen 0 else m.id)) = true <;> simp [h1]

/-- C1 witness: on the example state, a 1-metric batch against the
missing entry id "nope" fails with a ConstraintError and leaves the state
unchanged, while the same batch against the stored id "e1" persists
exactly its one row. -/
theorem saveMetrics_atomic_witness :
    SaveMetrics exDb "nope" [exMetric] gen0 9 = (some StoreError.constraintError, exDb) ∧
    (SaveMetrics exDb "e1" [exMetric] gen0 9).2 =
      { exDb with metrics := exDb.metrics ++ assignedMetricRows "e1" 9 gen0 [exMetric] 0 } := by
  constructor
  · exact (saveMetrics_atomic exDb "nope" [exMetric] gen0 9).2.2 (by decide) (by decide)
  · exact ((saveMetrics_atomic exDb "e1" [exMetric] gen0 9).2.1 (by decide)).1

/-- C9: `SaveMetrics` ignores each metric's caller-supplied `CreatedAt`
(rewriting every batch member's `CreatedAt` to any constant changes
nothing about the call) and stamps every row it persists with the single
timestamp taken once at the start of the batch, so all rows persisted by
one call carry an identical `created_at`. -/
theorem saveMetrics_sharedTimestamp (db : DB) (entryID : String) (ms : List Metric)
    (gen : Nat → String) (now : Nat) (c : Nat) :
    SaveMetrics db entryID (ms.map (fun m => { m with createdAt := c })) gen now =
      SaveMetrics db entryID ms gen now ∧
    (∀ r ∈ (SaveMetrics db entryID ms gen now).2.metrics,
      r ∈ db.metrics ∨ r.createdAt = now) := by
  constructor
  · unfold SaveMetrics
    rw [metricsTxLoop_map_createdAt]
  · intro r hr
    cases ho : (SaveMetrics db entryID ms gen now).1 with
    | none =>
      rw [saveMetrics_ok_eq ho] at hr
      rcases List.mem_append.mp hr with h | h
      · exact Or.inl h
      · exact Or.inr (assignedMetricRows_createdAt entryID now gen ms 0 r h)
    | some e =>
      rw [saveMetrics_err_eq ho] at hr
      exact Or.inl hr

/-- C9 witness: saving one metric with caller `CreatedAt` 77 is exactly
the call with `CreatedAt` 0, and the persisted row is stamped with the
batch timestamp 9. -/
theorem saveMetrics_sharedTimestamp_witness :
    SaveMetrics exDb "e1" ([exMetric].map (fun m => { m with createdAt := 77 })) gen0 9 =
      SaveMetrics exDb "e1" [exMetric] gen0 9 ∧
    ((⟨"u0", "e1", "total_hours", 7, 9⟩ : Metric) ∈ exDb.metrics ∨
      (⟨"u0", "e1", "total_hours", 7, 9⟩ : Metric).createdAt = 9) := by
  constructor
  · exact (saveMetrics_sharedTimestamp exDb "e1" [exMetric] gen0 9 77).1
  · exact (saveMetrics_sharedTimestamp exDb "e1" [exMetric] gen0 9 77).2
      ⟨"u0", "e1", "total_hours", 7, 9⟩ (by decide)

/-- Every search result comes from an embedding with the requested source
type whose `source_id` is the id of a stored entry, and carries that
embedding's distance to the query. -/
theorem searchSimilar_mem (db : DB) (q : List ℚ) (st : String) (k : Nat) :
    ∀ r ∈ SearchSimilar db q st k,
      r.entry ∈ db.entries ∧
      ∃ v ∈ db.embeddings, v.sourceType = st ∧ v.sourceId = r.entry.id ∧
        r.distance = dist2 q v.embedding := by
  intro r hr
  unfold SearchSimilar at hr
  rcases List.mem_filterMap.mp hr with ⟨p, hp, hjp⟩
  rcases Option.map_eq_some'.mp hjp with ⟨e, hfind, hre⟩
  have hentry : e ∈ db.entries := List.mem_of_find?_eq_some hfind
  have hid : e.id = p.1.sourceId := by simpa using List.find?_some hfind
  have hp2 : p ∈ List.insertionSort scoredDistAsc
      ((db.embeddings.filter (fun v => v.sourceType == st)).map
        (fun v => (v, dist2 q v.embedding))) := List.mem_of_mem_take hp
  have hp3 := (List.perm_insertionSort scoredDistAsc _).mem_iff.mp hp2
  rcases List.mem_map.mp hp3 with ⟨v, hv, hpv⟩
  have hv2 := List.mem_filter.mp hv
  have hrent : r.entry = e := by rw [← hre]
  have hrdist : r.distance = p.2 := by rw [← hre]
  have hp1 : p.1 = v := by rw [← hpv]
  have hpd : p.2 = dist2 q v.embedding := by rw [← hpv]
  refine ⟨by rw [hrent]; exact hentry, v, hv2.1, by simpa using hv2.2, ?_, ?_⟩
  · rw [hrent, hid, hp1]
  · rw [hrdist, hpd]

/-- C10: every result of `SearchSimilar` carries an Entry stored in the
entries table whose id equals the matched embedding's `source_id`;
consequently an embedding whose `source_id` references no stored entry
(such as one saved for a summary) is silently excluded by the inner join,
whatever source type was requested. -/
theorem searchSimilar_joinIntegrity (db : DB) (q : List ℚ) (st : String) (k : Nat) :
    (∀ r ∈ SearchSimilar db q st k,
      r.entry ∈ db.entries ∧
      ∃ v ∈ db.embeddings, v.sourceType = st ∧ v.sourceId = r.entry.id) ∧
    (∀ sid : String, (∀ e ∈ db.entries, e.id ≠ sid) →
      ∀ r ∈ SearchSimilar db q st k, r.entry.id ≠ sid) := by
  constructor
  · intro r hr
    rcases searchSimilar_mem db q st k r hr with ⟨hmem, v, hv, hst, hid, _⟩
    exact ⟨hmem, v, hv, hst, hid⟩
  · intro sid hmiss r hr heq
    rcases searchSimilar_mem db q st k r hr with ⟨hmem, _⟩
    exact hmiss r.entry hmem heq

/-- C10 witness: searching the state holding one embedding owned by `exE1`
and one dangling embedding with source id "zz" yields no result whose
entry id is "zz" — in particular not the one result actually returned. -/
theorem searchSimilar_joinIntegrity_witness :
    ({ entry := exE1, distance := 1 } : SimilarResult).entry.id ≠ "zz" := by
  have hres : SearchSimilar exDbV [0] "entry" 2 =
      [{ entry := exE1, distance := 1 }] := by with_unfolding_all rfl
  exact (searchSimilar_joinIntegrity exDbV [0] "entry" 2).2 "zz" (by decide)
    { entry := exE1, distance := 1 } (by rw [hres]; simp)

/-- C3 counterexample: a reachable state (one `SaveEmbedding` of a valid
1536-dimension vector under source type "entry" while no entry is stored)
has exactly one embedding matching the requested source type, fewer than
`k = 2`, yet `SearchSimilar` returns zero results rather than all matches:
the claim's "if fewer than k embeddings match the source type it returns
all matches" fails because the inner join drops the dangling match. -/
theorem searchSimilar_allMatches_cex :
    (exDbDangling.embeddings.filter (fun v => v.sourceType == "entry")).length = 1 ∧
    (SearchSimilar exDbDangling exVecZero "entry" 2).length = 0 := by
  constructor
  · decide
  · have : SearchSimilar exDbDangling exVecZero "entry" 2 = [] := rfl
    rw [this]
    rfl

/-- C3 (amended): `SearchSimilar` returns at most `k` results, all drawn
from embeddings tagged with exactly the requested source type (never a
non-matching one), ordered by non-decreasing distance, each joined back to
its owning Entry; zero matching embeddings yield an empty result, never an
error; and when at most `k` embeddings match the source type it returns
all matches whose `source_id` references a stored entry — each such match
contributes a result at its distance, and the result count equals the
count of such matches, in any state, including mixed states where other
matches dangle and are silently dropped by the inner join. -/
theorem searchSimilar_ordered_spec (db : DB) (q : List ℚ) (st : String) (k : Nat) :
    (SearchSimilar db q st k).length ≤ k ∧
    List.Sorted resultDistAsc (SearchSimilar db q st k) ∧
    (∀ r ∈ SearchSimilar db q st k,
      r.entry ∈ db.entries ∧
      ∃ v ∈ db.embeddings, v.sourceType = st ∧ v.sourceId = r.entry.id ∧
        r.distance = dist2 q v.embedding) ∧
    (db.embeddings.filter (fun v => v.sourceType == st) = [] →
      SearchSimilar db q st k = []) ∧
    ((db.embeddings.filter (fun v => v.sourceType == st)).length ≤ k →
      (∀ v ∈ db.embeddings.filter (fun v => v.sourceType == st),
        (∃ e ∈ db.entries, e.id = v.sourceId) →
        ∃ r ∈ SearchSimilar db q st k,
          r.entry.id = v.sourceId ∧ r.distance = dist2 q v.embedding) ∧
      (SearchSimilar db q st k).length =
        ((db.embeddings.filter (fun v => v.sourceType == st)).filter
          (fun v => (db.entries.find? (fun e => e.id == v.sourceId)).isSome)).length) := by
  refine ⟨?_, ?_, searchSimilar_mem db q st k, ?_, ?_⟩
  · unfold SearchSimilar
    calc (List.filterMap _ _).length
        ≤ (List.take k (List.insertionSort scoredDistAsc _)).length :=
          List.length_filterMap_le _ _
      _ ≤ k := by rw [List.length_take]; exact Nat.min_le_left _ _
  · unfold SearchSimilar
    apply List.pairwise_filterMap.mpr
    have hknn : List.Pairwise scoredDistAsc
        ((List.insertionSort scoredDistAsc
          ((db.embeddings.filter (fun v => v.sourceType == st)).map
            (fun v => (v, dist2 q v.embedding)))).take k) :=
      List.Pairwise.sublist (List.take_sublist _ _) (List.sorted_insertionSort _ _)
    refine hknn.imp ?_
    intro a b hab x hx x' hx'
    rcases Option.map_eq_some'.mp hx with ⟨e, _, hxe⟩
    rcases Option.map_eq_some'.mp hx' with ⟨e', _, hxe'⟩
    have hx2 : x.distance = a.2 := by rw [← hxe]
    have hx2' : x'.distance = b.2 := by rw [← hxe']
    unfold resultDistAsc
    rw [hx2, hx2']
    exact hab
  · intro hempty
    unfold SearchSimilar
    rw [hempty]
    simp
  · intro hk
    have hlen : (List.insertionSort scoredDistAsc
        ((db.embeddings.filter (fun v => v.sourceType == st)).map
          (fun v => (v, dist2 q v.embedding)))).length =
        (db.embeddings.filter (fun v => v.sourceType == st)).length := by
      rw [(List.perm_insertionSort _ _).length_eq, List.length_map]
    constructor
    · rintro v hv ⟨e, he, hid⟩
      have hp : (v, dist2 q v.embedding) ∈ List.insertionSort scoredDistAsc
          ((db.embeddings.filter (fun v => v.sourceType == st)).map
            (fun v => (v, dist2 q v.embedding))) :=
        (List.perm_insertionSort _ _).mem_iff.mpr (List.mem_map.mpr ⟨v, hv, rfl⟩)
      have hsome : (db.entries.find? (fun x => x.id == v.sourceId)).isSome :=
        List.find?_isSome.mpr ⟨e, he, by simp [hid]⟩
      rcases Option.isSome_iff_exists.mp hsome with ⟨e2, hfind⟩
      refine ⟨{ entry := e2, distance := dist2 q v.embedding }, ?_, ?_, rfl⟩
      · unfold SearchSimilar
        rw [List.take_of_length_le (by rw [hlen]; exact hk)]
        exact List.mem_filterMap.mpr ⟨(v, dist2 q v.embedding), hp, by simp [hfind]⟩
      · simpa using List.find?_some hfind
    · unfold SearchSimilar
      rw [List.take_of_length_le (by rw [hlen]; exact hk)]
      rw [length_filterMap_eq_countP]
      rw [List.Perm.countP_eq _ (List.perm_insertionSort _ _)]
      rw [List.countP_map]
      rw [← List.countP_eq_length_filter]
      apply List.countP_congr
      intro v hv
      cases hfind : db.entries.find? (fun e => e.id == v.sourceId) <;>
        simp [Function.comp, hfind]

/-- C3 witness: a search under the non-matching source type "summary"
returns nothing, and on the mixed state `exDbV` (one embedding owned by
the stored `exE1`, one dangling) a search under "entry" with `k = 2`
returns exactly as many results as matching embeddings whose source id
references a stored entry — namely one. -/
theorem searchSimilar_ordered_spec_witness :
    SearchSimilar exDbV3 [0] "summary" 2 = [] ∧
    (SearchSimilar exDbV [0] "entry" 2).length =
      ((exDbV.embeddings.filter (fun v => v.sourceType == "entry")).filter
        (fun v => (exDbV.entries.find? (fun e => e.id == v.sourceId)).isSome)).length ∧
    ((exDbV.embeddings.filter (fun v => v.sourceType == "entry")).filter
      (fun v => (exDbV.entries.find? (fun e => e.id == v.sourceId)).isSome)).length = 1 := by
  refine ⟨?_, ?_, ?_⟩
  · exact (searchSimilar_ordered_spec exDbV3 [0] "summary" 2).2.2.2.1 (by decide)
  · exact ((searchSimilar_ordered_spec exDbV [0] "entry" 2).2.2.2.2 (by decide)).2
  · decide

/-- C6 counterexample: the claim as stated fails for Metric. The caller
supplies the nonzero creation timestamp 77 (and owning-entry field
"ignored") on `exMetricStamped`; `SaveMetrics` succeeds, yet `GetMetrics`
returns the single persisted row carrying the batch timestamp 9 — not the
caller-supplied 77 — and the call's entry id "e1", so the value that comes
back is not equal to the saved one on every caller-supplied field even
though those fields were not originally empty. -/
theorem saveGet_roundTrip_cex :
    exMetricStamped.createdAt = 77 ∧ exMetricStamped.entryId = "ignored" ∧
    (SaveMetrics exDb "e1" [exMetricStamped] gen0 9).1 = none ∧
    GetMetrics (SaveMetrics exDb "e1" [exMetricStamped] gen0 9).2 "sleep"
        "total_hours" 1 30 =
      [⟨"m1", "e1", "total_hours", 7, 9⟩] ∧
    (9 : Nat) ≠ 77 ∧ "e1" ≠ "ignored" := by decide

/-- C6 (amended): for Entry, Finding and Summary values, save followed by
the corresponding get returns a value equal to the saved one on every
caller-supplied field, with id and creation timestamp populated by the
store only when the caller left them empty. Entries come back through
`GetEntryByID`, findings through `GetRecentFindings`, summaries through
`GetSummaries` (for any window containing the period); the `normalize*`
rows alter nothing but an absent id or timestamp. For Metric values, save
followed by `GetMetrics` (for any window containing the owning entry's
date) returns the persisted row with key and value equal and a supplied id
preserved, but its entry id is the call's `entryID` argument (the metric's
own `EntryID` field is ignored) and its creation timestamp is the shared
batch timestamp, which replaces even a caller-supplied one. -/
theorem saveGet_roundTrip :
    (∀ (db : DB) (e : Entry) (genId : String) (now : Nat),
      (SaveEntry db e genId now).1 = none →
      GetEntryByID (SaveEntry db e genId now).2 (if e.id = "" then genId else e.id) =
        Except.ok (normalizeEntry e genId now)) ∧
    (∀ (e : Entry) (genId : String) (now : Nat),
      (normalizeEntry e genId now).date = e.date ∧
      (normalizeEntry e genId now).category = e.category ∧
      (normalizeEntry e genId now).inputText = e.inputText ∧
      (normalizeEntry e genId now).analysisText = e.analysisText ∧
      (e.id ≠ "" → (normalizeEntry e genId now).id = e.id) ∧
      (e.createdAt ≠ 0 → (normalizeEntry e genId now).createdAt = e.createdAt)) ∧
    (∀ (db : DB) (f : Finding) (genId : String) (now : Nat),
      (SaveFinding db f genId now).1 = none →
      normalizeFinding f genId now ∈
        GetRecentFindings (SaveFinding db f genId now).2
          (((SaveFinding db f genId now).2.findings.length : Int))) ∧
    (∀ (f : Finding) (genId : String) (now : Nat),
      (normalizeFinding f genId now).date = f.date ∧
      (normalizeFinding f genId now).findingText = f.findingText ∧
      (normalizeFinding f genId now).categories = f.categories ∧
      (f.id ≠ "" → (normalizeFinding f genId now).id = f.id) ∧
      (f.createdAt ≠ 0 → (normalizeFinding f genId now).createdAt = f.createdAt)) ∧
    (∀ (db : DB) (s : Summary) (genId : String) (now fromDate toDate : Nat),
      (SaveSummary db s genId now).1 = none →
      fromDate ≤ s.periodStart → s.periodEnd ≤ toDate →
      normalizeSummary s genId now ∈
        GetSummaries (SaveSummary db s genId now).2 s.category fromDate toDate) ∧
    (∀ (s : Summary) (genId : String) (now : Nat),
      (normalizeSummary s genId now).periodStart = s.periodStart ∧
      (normalizeSummary s genId now).periodEnd = s.periodEnd ∧
      (normalizeSummary s genId now).category = s.category ∧
      (normalizeSummary s genId now).summaryText = s.summaryText ∧
      (s.id ≠ "" → (normalizeSummary s genId now).id = s.id) ∧
      (s.createdAt ≠ 0 → (normalizeSummary s genId now).createdAt = s.createdAt)) ∧
    (∀ (db : DB) (e : Entry) (m : Metric) (gen : Nat → String) (now fromDate toDate : Nat),
      e ∈ db.entries → fromDate ≤ e.date → e.date ≤ toDate →
      (SaveMetrics db e.id [m] gen now).1 = none →
      (⟨if m.id = "" then gen 0 else m.id, e.id, m.key, m.value, now⟩ : Metric) ∈
        GetMetrics (SaveMetrics db e.id [m] gen now).2 e.category m.key fromDate toDate) ∧
    (∀ (m : Metric) (gen : Nat → String) (eid : String) (now : Nat),
      (⟨if m.id = "" then gen 0 else m.id, eid, m.key, m.value, now⟩ : Metric).key = m.key ∧
      (⟨if m.id = "" then gen 0 else m.id, eid, m.key, m.value, now⟩ : Metric).value = m.value ∧
      (m.id ≠ "" →
        (⟨if m.id = "" then gen 0 else m.id, eid, m.key, m.value, now⟩ : Metric).id = m.id) ∧
      (⟨if m.id = "" then gen 0 else m.id, eid, m.key, m.value, now⟩ : Metric).entryId = eid ∧
      (⟨if m.id = "" then gen 0 else m.id, eid, m.key, m.value, now⟩ : Metric).createdAt = now) := by
  refine ⟨?_, ?_, ?_, ?_, ?_, ?_, ?_, ?_⟩
  · intro db e genId now h
    rcases saveEntry_ok_eq h with ⟨hdb, hany⟩
    unfold GetEntryByID
    rw [hdb]
    have hfind := find?_append_singleton (a := normalizeEntry e genId now)
      (p := fun x => x.id == (normalizeEntry e genId now).id)
      (List.any_eq_false.mp hany) (by simp)
    have hqid : (if e.id = "" then genId else e.id) = (normalizeEntry e genId now).id := rfl
    rw [hqid, hfind]
  · intro e genId now
    refine ⟨rfl, rfl, rfl, rfl, ?_, ?_⟩
    · intro h; simp [normalizeEntry, h]
    · intro h; simp [normalizeEntry, h]
  · intro db f genId now h
    have hdb := saveFinding_ok_eq h
    apply (getRecentFindings_full_perm (SaveFinding db f genId now).2).mem_iff.mpr
    rw [hdb]
    simp
  · intro f genId now
    refine ⟨rfl, rfl, rfl, ?_, ?_⟩
    · intro h; simp [normalizeFinding, h]
    · intro h; simp [normalizeFinding, h]
  · intro db s genId now fromDate toDate h h1 h2
    have hdb := saveSummary_ok_eq h
    unfold GetSummaries
    apply (List.perm_insertionSort summaryStartDesc _).mem_iff.mpr
    apply List.mem_filter.mpr
    constructor
    · rw [hdb]; simp
    · have hps : (normalizeSummary s genId now).periodStart = s.periodStart := rfl
      have hpe : (normalizeSummary s genId now).periodEnd = s.periodEnd := rfl
      have hc : (normalizeSummary s genId now).category = s.category := rfl
      simp [hps, hpe, hc, h1, h2]
  · intro s genId now
    refine ⟨rfl, rfl, rfl, rfl, ?_, ?_⟩
    · intro h; simp [normalizeSummary, h]
    · intro h; simp [normalizeSummary, h]
  · intro db e m gen now fromDate toDate hmem h1 h2 h
    have hdb := saveMetrics_ok_eq h
    have hrows : assignedMetricRows e.id now gen [m] 0 =
        [⟨if m.id = "" then gen 0 else m.id, e.id, m.key, m.value, now⟩] := by
      simp [assignedMetricRows]
    unfold GetMetrics
    apply List.mem_map.mpr
    refine ⟨(⟨if m.id = "" then gen 0 else m.id, e.id, m.key, m.value, now⟩, e), ?_, rfl⟩
    apply (List.perm_insertionSort metricJoinDateDesc _).mem_iff.mpr
    apply List.mem_filter.mpr
    refine ⟨?_, by simp⟩
    apply List.mem_flatMap.mpr
    refine ⟨⟨if m.id = "" then gen 0 else m.id, e.id, m.key, m.value, now⟩, ?_, ?_⟩
    · rw [hdb, hrows]
      simp
    · apply List.mem_map.mpr
      refine ⟨e, ?_, rfl⟩
      apply List.mem_filter.mpr
      have hent : (SaveMetrics db e.id [m] gen now).2.entries = db.entries := by
        rw [hdb]
      exact ⟨by rw [hent]; exact hmem, by simp [h1, h2]⟩
  · intro m gen eid now
    refine ⟨rfl, rfl, ?_, rfl, rfl⟩
    intro h
    simp [h]

/-- C6 witness: concrete round trips on the example states — an id-less
entry saved and fetched back by its generated id "g"; field preservation
of the stored rows; a finding, a summary and a metric each found by the
corresponding get after saving. -/
theorem saveGet_roundTrip_witness :
    GetEntryByID (SaveEntry exDb exEntryNoId "g" 9).2
        (if exEntryNoId.id = "" then "g" else exEntryNoId.id) =
      Except.ok (normalizeEntry exEntryNoId "g" 9) ∧
    (normalizeEntry exE1 "g" 9).id = exE1.id ∧
    (normalizeEntry exE1 "g" 9).createdAt = exE1.createdAt ∧
    normalizeFinding exF2 "g" 9 ∈
      GetRecentFindings (SaveFinding exDbF exF2 "g" 9).2
        (((SaveFinding exDbF exF2 "g" 9).2.findings.length : Int)) ∧
    (normalizeFinding exF2 "g" 9).categories = exF2.categories ∧
    normalizeSummary exS1 "g" 9 ∈
      GetSummaries (SaveSummary exDb0 exS1 "g" 9).2 exS1.category 1 30 ∧
    (⟨if exMetric.id = "" then gen0 0 else exMetric.id, exE1.id, exMetric.key,
        exMetric.value, 9⟩ : Metric) ∈
      GetMetrics (SaveMetrics exDb exE1.id [exMetric] gen0 9).2 exE1.category
        exMetric.key 1 30 ∧
    (⟨if exMetricStamped.id = "" then gen0 0 else exMetricStamped.id, "e1",
        exMetricStamped.key, exMetricStamped.value, 9⟩ : Metric).id =
      exMetricStamped.id := by
  refine ⟨?_, ?_, ?_, ?_, ?_, ?_, ?_, ?_⟩
  · exact saveGet_roundTrip.1 exDb exEntryNoId "g" 9 (by decide)
  · exact (saveGet_roundTrip.2.1 exE1 "g" 9).2.2.2.2.1 (by decide)
  · exact (saveGet_roundTrip.2.1 exE1 "g" 9).2.2.2.2.2 (by decide)
  · exact saveGet_roundTrip.2.2.1 exDbF exF2 "g" 9 (by decide)
  · exact (saveGet_roundTrip.2.2.2.1 exF2 "g" 9).2.2.1
  · exact saveGet_roundTrip.2.2.2.2.1 exDb0 exS1 "g" 9 1 30 (by decide)
      (by decide) (by decide)
  · exact saveGet_roundTrip.2.2.2.2.2.2.1 exDb exE1 exMetric gen0 9 1 30 (by decide)
      (by decide) (by decide) (by decide)
  · exact (saveGet_roundTrip.2.2.2.2.2.2.2 exMetricStamped gen0 "e1" 9).2.2.1 (by decide)

end HealthAnalyzer
